import Mathlib

/-!
Verification of the EconDash fetch-and-cache and derived-metrics subsystem.

The definitions below are a shallow embedding of `src/app.py`:

* the FRED fetch layer (`get_cache_key`, `fetch_fred_data_cached` with its
  `lru_cache(maxsize=128)` decorator, `fetch_fred_data`, `get_data`);
* the derived-metric blocks of the `dashboard` route (per-indicator summary,
  yield-curve points, 2y/10y spread) and of the `yield_curve` route.

Machine-level conventions: pandas timestamps are modelled as day ordinals
(`Nat`, only their order matters) and the process clock as an hour counter.
Values of the float64 `value` column are modelled by `PyFloat`: a finite
reading (kept exact as a rational — float rounding is outside the scope of
the verified properties), a signed infinity, or NaN.
`pd.to_numeric(..., errors="coerce")` turns an unparseable raw value (such as
the provider's placeholder ".") into NaN, and the subsequent
`df["value"].where(pd.notna(df["value"]), None)` on line 75 is a no-op on a
float64 column — pandas standardises the `None` fill value to the column's NA
marker, NaN — so missing readings stay NaN floats and every downstream
`x is not None` check on a column value passes. Outbound HTTP is modelled by
a provider oracle `Nat → FredRequest → FredResponse` indexed by the running
request count, so different outbound requests may behave differently.
-/

/-- One value of the float64 `value` column produced by
`pd.to_numeric(..., errors="coerce")` (src/app.py line 72): a finite reading
(kept exact as a rational), a signed infinity, or NaN. A missing or
unparseable raw value (the provider's ".") becomes NaN; line 75's
`df["value"].where(pd.notna(df["value"]), None)` is a no-op on the float64
column (pandas standardises the `None` fill to the column's NA marker, NaN),
so no value of this column is ever `None`. -/
inductive PyFloat where
  | num (q : ℚ)
  | inf (pos : Bool)
  | nan
deriving DecidableEq

/-- IEEE-754 subtraction on the modelled column values: NaN propagates,
infinities of equal sign subtract to NaN, otherwise the left infinity wins. -/
def PyFloat.sub : PyFloat → PyFloat → PyFloat
  | .nan, _ => .nan
  | _, .nan => .nan
  | .num a, .num b => .num (a - b)
  | .num _, .inf p => .inf (!p)
  | .inf p, .num _ => .inf p
  | .inf p, .inf q => if p = q then .nan else .inf p

/-- IEEE-754 division: NaN propagates, a non-zero finite value divided by
(positive) zero gives an infinity signed by the numerator, zero by zero gives
NaN. -/
def PyFloat.div : PyFloat → PyFloat → PyFloat
  | .nan, _ => .nan
  | _, .nan => .nan
  | .num a, .num b =>
    if b = 0 then (if a = 0 then .nan else .inf (decide (0 < a)))
    else .num (a / b)
  | .num _, .inf _ => .num 0
  | .inf p, .num b => if b < 0 then .inf (!p) else .inf p
  | .inf _, .inf _ => .nan

/-- IEEE-754 multiplication: NaN propagates, an infinity times zero is NaN,
otherwise signs multiply. -/
def PyFloat.mul : PyFloat → PyFloat → PyFloat
  | .nan, _ => .nan
  | _, .nan => .nan
  | .num a, .num b => .num (a * b)
  | .num a, .inf p => if a = 0 then .nan
    else (if a < 0 then .inf (!p) else .inf p)
  | .inf p, .num b => if b = 0 then .nan
    else (if b < 0 then .inf (!p) else .inf p)
  | .inf p, .inf q => .inf (p == q)

/-- IEEE-754 strict less-than: any comparison involving NaN is false. -/
def PyFloat.lt : PyFloat → PyFloat → Bool
  | .nan, _ => false
  | _, .nan => false
  | .num a, .num b => decide (a < b)
  | .num _, .inf p => p
  | .inf p, .num _ => !p
  | .inf p, .inf q => !p && q

/-- Strict greater-than, `x > y` in the source; false whenever NaN is
involved. -/
def PyFloat.gt (a b : PyFloat) : Bool := PyFloat.lt b a

/-- The check `x is not None` applied to a value of the `value` column. It is
always true: the column is float64 and holds NaN — never `None` — for
missing readings (see `PyFloat`), so the value guards on src/app.py lines
110, 118, 128, 144 and 212 never filter anything out. -/
def isNotNone (_v : PyFloat) : Bool := true

/-- One observation row after normalisation in `fetch_fred_data_cached`
(src/app.py lines 71-75): `pd.to_datetime` turns the date into a comparable
day ordinal and `pd.to_numeric` with coercion turns the value into a float,
NaN when the raw field was unparseable. -/
structure Obs where
  date : Nat
  value : PyFloat
deriving DecidableEq

/-- An Observation Table: ordered rows for one series. -/
abbrev ObsTable := List Obs

/-- Response body of the provider once JSON-decoded: the `observations` field
may be missing (src/app.py line 67 checks for it). -/
structure FredBody where
  observations : Option (List Obs)
deriving DecidableEq

/-- Outcome of one outbound request, covering exactly the failure points the
code handles (src/app.py lines 56-69): a transport failure raised by
`requests.get`, a non-success status raised by `raise_for_status` (both are
`requests.exceptions.RequestException`, first handler), a body that fails to
decode as JSON (`resp.json()` raising, second handler), or a decoded body. -/
inductive FredResponse where
  | transportError
  | statusError
  | jsonError
  | ok (body : FredBody)
deriving DecidableEq

/-- Cache keys in the code are strings: either
`datetime.now().strftime("%Y-%m-%d-%H")` — one string per wall-clock hour,
distinct strings for distinct hours — or the pinned string
`"full_" + series_id`, which is never of the date-hour shape. The two
families are therefore disjoint and injective, and are modelled as a sum. -/
inductive CacheKey where
  | hour (h : Nat)
  | full (series_id : String)
deriving DecidableEq

/-- Translation of `get_cache_key` (src/app.py lines 37-39): the bucket named
by the current wall-clock hour. -/
def get_cache_key (nowHour : Nat) : CacheKey :=
  CacheKey.hour nowHour

/-- The parameter dictionary of one outbound request
(src/app.py lines 48-54). -/
structure FredRequest where
  series_id : String
  api_key : String
  file_type : String
  observation_start : Option String
deriving DecidableEq

/-- The hardcoded API key (src/app.py line 11). -/
def FRED_API_KEY : String := "4bfa7711b674526e81033245cc15c439"

/-- Request parameters built in `fetch_fred_data_cached`
(src/app.py lines 45-54): the `observation_start` filter is attached exactly
when the series is SP500, independently of the caller's `full_history` flag. -/
def params (series_id : String) : FredRequest :=
  { series_id := series_id,
    api_key := FRED_API_KEY,
    file_type := "json",
    observation_start := if series_id = "SP500" then some "1871-01-01" else none }

/-- Date-descending comparison used by
`df.sort_values("date", ascending=False)` (src/app.py line 74). -/
def obsDesc (a b : Obs) : Prop := b.date ≤ a.date

instance : DecidableRel obsDesc :=
  fun a b => inferInstanceAs (Decidable (b.date ≤ a.date))

instance : IsTotal Obs obsDesc :=
  ⟨fun a b => Nat.le_total b.date a.date⟩

instance : IsTrans Obs obsDesc :=
  ⟨fun _ _ _ h1 h2 => Nat.le_trans h2 h1⟩

/-- Normalisation of one response inside `fetch_fred_data_cached`
(src/app.py lines 56-76): every failure path returns the empty table; a body
carrying the `observations` field is sorted by date descending. -/
def processResponse (r : FredResponse) : ObsTable :=
  match r with
  | .transportError => []
  | .statusError => []
  | .jsonError => []
  | .ok body =>
    match body.observations with
    | none => []
    | some obs => List.insertionSort obsDesc obs

/-- Process-wide state of the memoised fetch layer: the `lru_cache(maxsize=128)`
table in most-recently-used-first order, the running count of outbound
requests, and the log of requests sent. -/
structure FredState where
  cache : List ((String × CacheKey) × ObsTable)
  requests : Nat
  sent : List FredRequest
deriving DecidableEq

/-- Lookup in the memoisation table. -/
def lookupCache (k : String × CacheKey)
    (c : List ((String × CacheKey) × ObsTable)) : Option ObsTable :=
  (c.find? (fun e => decide (e.1 = k))).map (fun e => e.2)

/-- Translation of `fetch_fred_data_cached` (src/app.py lines 42-76) together
with its `lru_cache(maxsize=128)` decorator. A hit returns the memoised table
and marks its entry most recently used; a miss sends one outbound request,
normalises the response (any failure becomes the empty table), memoises the
result, and evicts the least recently used entry should the table be full. -/
def fetch_fred_data_cached (provider : Nat → FredRequest → FredResponse)
    (series_id : String) (cache_key : CacheKey) (st : FredState) :
    ObsTable × FredState :=
  match lookupCache (series_id, cache_key) st.cache with
  | some tbl =>
    (tbl, { st with cache := ((series_id, cache_key), tbl) ::
        st.cache.filter (fun e => !decide (e.1 = (series_id, cache_key))) })
  | none =>
    let req := params series_id
    let tbl := processResponse (provider st.requests req)
    (tbl, { cache := ((series_id, cache_key), tbl) :: st.cache.take 127,
            requests := st.requests + 1,
            sent := st.sent ++ [req] })

/-- Bucket selection in `fetch_fred_data` (src/app.py line 81):
`"full_" + series_id` when full history is requested, else the hour bucket. -/
def fetchKey (series_id : String) (full_history : Bool) (nowHour : Nat) :
    CacheKey :=
  if full_history then CacheKey.full series_id else get_cache_key nowHour

/-- Translation of `fetch_fred_data` (src/app.py lines 79-82). -/
def fetch_fred_data (provider : Nat → FredRequest → FredResponse)
    (series_id : String) (full_history : Bool) (nowHour : Nat)
    (st : FredState) : ObsTable × FredState :=
  fetch_fred_data_cached provider series_id
    (fetchKey series_id full_history nowHour) st

/-- Display name and provider code for one indicator
(src/app.py lines 17-23). -/
structure IndicatorInfo where
  name : String
  series_id : String
deriving DecidableEq

/-- Translation of the `INDICATORS` table (src/app.py lines 17-23). -/
def INDICATORS : List (String × IndicatorInfo) :=
  [("GDP", ⟨"Nominal GDP (Billions $)", "GDP"⟩),
   ("UNRATE", ⟨"Unemployment Rate (%)", "UNRATE"⟩),
   ("CPI", ⟨"CPI (Index)", "CPIAUCSL"⟩),
   ("FEDFUNDS", ⟨"Federal Funds Rate (%)", "FEDFUNDS"⟩),
   ("SP500", ⟨"S&P 500 Index", "SP500"⟩)]

/-- Dictionary lookup `INDICATORS.get(key)` (src/app.py line 87). -/
def indicatorInfo (key : String) : Option IndicatorInfo :=
  (INDICATORS.find? (fun e => decide (e.1 = key))).map (fun e => e.2)

/-- Translation of `get_data` (src/app.py lines 85-93). Dates are kept as day
ordinals rather than re-rendered strings; the `(date, value)` rows otherwise
match `list(zip(df["date"], df["value"]))`. -/
def get_data (provider : Nat → FredRequest → FredResponse) (key : String)
    (nowHour : Nat) (st : FredState) :
    List (Nat × PyFloat) × FredState :=
  match indicatorInfo key with
  | none => ([], st)
  | some info =>
    let res := fetch_fred_data provider info.series_id
      (decide (key = "SP500")) nowHour st
    if res.1.isEmpty then ([], res.2)
    else (res.1.map (fun o => (o.date, o.value)), res.2)

/-- Presentation record built per indicator by the `dashboard` route
(src/app.py lines 114-122); the routing metadata (`key`, `name`) is omitted,
the derived fields are kept. The `date` field mirrors the guard on line 118,
which never fires because column values are never `None`. -/
structure Summary where
  current : PyFloat
  date : Option Nat
  change : Option PyFloat
  pct_change : Option PyFloat
  trend : Option String
deriving DecidableEq

/-- Translation of the per-indicator block of the `dashboard` route
(src/app.py lines 104-122): `none` when the table is empty (the route then
appends nothing for the series). The guard on line 110 is
`previous is not None and latest["value"] is not None and
previous["value"] is not None`; only its first conjunct — a second row
exists — can fail, since the two value checks compare floats (NaN for a
missing reading) against `None`. With two or more rows, `change`,
`pct_change` and `trend` are therefore always computed: NaN propagates
through the arithmetic and makes both comparisons on line 113 false, so a
missing reading produces the trend label "stable". The division on line 112
carries no guard against a zero prior. -/
def summarize (table : ObsTable) : Option Summary :=
  match table with
  | [] => none
  | latest :: rest =>
    let cpt : Option (PyFloat × PyFloat × String) :=
      match rest.head? with
      | some previous =>
        if isNotNone latest.value && isNotNone previous.value then
          let change := latest.value.sub previous.value
          some (change, (change.div previous.value).mul (.num 100),
            if change.gt (.num 0) then "up"
            else if change.lt (.num 0) then "down" else "stable")
        else none
      | none => none
    some { current := latest.value,
           date := if isNotNone latest.value then some latest.date else none,
           change := cpt.map (fun x => x.1),
           pct_change := cpt.map (fun x => x.2.1),
           trend := cpt.map (fun x => x.2.2) }

/-- Translation of the 2y/10y spread block of the `dashboard` route
(src/app.py lines 139-146): both tables must be non-empty, and the row-0
values must pass the `is not None` checks on line 144 — which a NaN
(missing) reading always does, so a missing leg yields a NaN spread rather
than an absent one; only empty tables leave `(none, false)`. -/
def spread_calc (dgs2 dgs10 : ObsTable) : Option PyFloat × Bool :=
  match dgs2, dgs10 with
  | o2 :: _, o10 :: _ =>
    if isNotNone o2.value && isNotNone o10.value then
      let spread := o10.value.sub o2.value
      (some spread, spread.lt (.num 0))
    else (none, false)
  | _, _ => (none, false)

/-- Display name, provider code and static maturity for one Treasury series
(src/app.py lines 25-34). -/
structure TreasuryInfo where
  key : String
  name : String
  series_id : String
  maturity : ℚ
deriving DecidableEq

/-- Translation of the `TREASURY_YIELDS` table (src/app.py lines 25-34), in
dictionary insertion order. -/
def TREASURY_YIELDS : List TreasuryInfo :=
  [⟨"DGS1MO", "1-Month Treasury", "DGS1MO", 1/12⟩,
   ⟨"DGS3MO", "3-Month Treasury", "DGS3MO", 1/4⟩,
   ⟨"DGS6MO", "6-Month Treasury", "DGS6MO", 1/2⟩,
   ⟨"DGS1", "1-Year Treasury", "DGS1", 1⟩,
   ⟨"DGS2", "2-Year Treasury", "DGS2", 2⟩,
   ⟨"DGS5", "5-Year Treasury", "DGS5", 5⟩,
   ⟨"DGS10", "10-Year Treasury", "DGS10", 10⟩,
   ⟨"DGS30", "30-Year Treasury", "DGS30", 30⟩]

/-- One entry of `yield_curve_data` built by the `dashboard` route
(src/app.py lines 129-133): static maturity, display name and the row-0
value (possibly NaN). The route stores no date in these points. -/
structure YieldPoint where
  maturity : ℚ
  maturity_name : String
  yield_value : PyFloat
deriving DecidableEq

/-- Maturity-ascending comparison used by
`yield_curve_data.sort(key=lambda x: x["maturity"])` (src/app.py line 134). -/
def pointLe (p q : YieldPoint) : Prop := p.maturity ≤ q.maturity

instance : DecidableRel pointLe :=
  fun p q => inferInstanceAs (Decidable (p.maturity ≤ q.maturity))

instance : IsTotal YieldPoint pointLe :=
  ⟨fun p q => le_total p.maturity q.maturity⟩

instance : IsTrans YieldPoint pointLe :=
  ⟨fun _ _ _ h1 h2 => le_trans h1 h2⟩

/-- The conditional append of the `dashboard` yield-curve loop
(src/app.py lines 126-133): one point per series whose table is non-empty
and whose row-0 value passes `is not None` (line 128) — which a NaN reading
always does, so only empty tables are skipped and a missing reading yields a
NaN point. -/
def mkYieldPoint (tables : String → ObsTable) (info : TreasuryInfo) :
    Option YieldPoint :=
  match tables info.series_id with
  | [] => none
  | o :: _ =>
    if isNotNone o.value then some ⟨info.maturity, info.name, o.value⟩
    else none

/-- Translation of the yield-curve block of the `dashboard` route
(src/app.py lines 125-134): build the points in configuration order, then
sort ascending by the static maturity. -/
def yield_curve_data (tables : String → ObsTable) : List YieldPoint :=
  List.insertionSort pointLe (TREASURY_YIELDS.filterMap (mkYieldPoint tables))

/-- One entry of `treasury_data` built by the `yield_curve` route
(src/app.py lines 196-202): included for every non-empty table, the row-0
value stored as-is (NaN for a missing reading); `historical` keeps the whole
table. -/
structure TreasuryEntry where
  key : String
  name : String
  maturity : ℚ
  current : PyFloat
  date : Nat
  historical : List Obs
deriving DecidableEq

/-- Maturity-ascending comparison used by
`sorted(treasury_data.items(), key=lambda x: x[1]["maturity"])`
(src/app.py line 204). -/
def entryLe (p q : TreasuryEntry) : Prop := p.maturity ≤ q.maturity

instance : DecidableRel entryLe :=
  fun p q => inferInstanceAs (Decidable (p.maturity ≤ q.maturity))

instance : IsTotal TreasuryEntry entryLe :=
  ⟨fun p q => le_total p.maturity q.maturity⟩

instance : IsTrans TreasuryEntry entryLe :=
  ⟨fun _ _ _ h1 h2 => le_trans h1 h2⟩

/-- The conditional insertion of the `yield_curve` route loop
(src/app.py lines 193-202): an entry for every series with a non-empty
table; the row-0 value is stored as-is, NaN when the reading is missing. -/
def mkTreasuryEntry (tables : String → ObsTable) (info : TreasuryInfo) :
    Option TreasuryEntry :=
  match tables info.series_id with
  | [] => none
  | o :: rest =>
    some ⟨info.key, info.name, info.maturity, o.value, o.date, o :: rest⟩

/-- The `treasury_data` dictionary of the `yield_curve` route viewed as its
entry list in insertion order (src/app.py lines 192-202). -/
def treasury_route_data (tables : String → ObsTable) : List TreasuryEntry :=
  TREASURY_YIELDS.filterMap (mkTreasuryEntry tables)

/-- Translation of `sorted_treasuries` (src/app.py line 204). -/
def sorted_treasuries (tables : String → ObsTable) : List TreasuryEntry :=
  List.insertionSort entryLe (treasury_route_data tables)

/-- The `treasury_data` dictionary of the `yield_curve` route viewed as a
partial map: `"DGS2" in treasury_data` holds exactly when that series was
configured and its fetched table non-empty. Keys in `TREASURY_YIELDS` are
pairwise distinct, so the map view agrees with the entry list. -/
def treasury_dict (tables : String → ObsTable) (k : String) :
    Option TreasuryEntry :=
  (TREASURY_YIELDS.find? (fun i => decide (i.key = k))).bind
    (fun info => mkTreasuryEntry tables info)

/-- Translation of the 2y/10y spread block of the `yield_curve` route
(src/app.py lines 207-214): guarded by membership of both keys in
`treasury_data` and by the `is not None` checks on line 212, which NaN
readings always pass. -/
def route_spread (tables : String → ObsTable) : Option PyFloat × Bool :=
  match treasury_dict tables "DGS2", treasury_dict tables "DGS10" with
  | some e2, some e10 =>
    if isNotNone e2.current && isNotNone e10.current then
      let spread := e10.current.sub e2.current
      (some spread, spread.lt (.num 0))
    else (none, false)
  | _, _ => (none, false)

/-- Responses on which `fetch_fred_data_cached` takes one of its error paths
(src/app.py lines 56-69): any raised request or parse failure, or a decoded
body missing the `observations` field. -/
def isFailure (r : FredResponse) : Bool :=
  match r with
  | .ok body => body.observations.isNone
  | _ => true

/-- Invariant of reachable fetch states: every memoised table is sorted by
date descending. It holds of the initial state (empty cache) and is preserved
by every fetch. -/
def CacheSorted (st : FredState) : Prop :=
  ∀ e ∈ st.cache, List.Sorted obsDesc e.2

/-- State of the process at startup: empty memoisation table, no outbound
requests yet. -/
def emptyState : FredState := ⟨[], 0, []⟩

/-- Sample provider oracle for concrete evaluations: always answers with two
observations, given out of date order. -/
def okProvider : Nat → FredRequest → FredResponse :=
  fun _ _ => .ok ⟨some [⟨2, .num 3⟩, ⟨5, .num 7⟩]⟩

/-- Sample provider oracle for concrete evaluations: every request fails at
the transport layer. -/
def errProvider : Nat → FredRequest → FredResponse :=
  fun _ _ => .transportError

theorem lookupCache_cons_self (k : String × CacheKey) (tbl : ObsTable)
    (c : List ((String × CacheKey) × ObsTable)) :
    lookupCache k ((k, tbl) :: c) = some tbl := by
  simp [lookupCache, List.find?]

theorem fetch_cached_hit (provider : Nat → FredRequest → FredResponse)
    (series_id : String) (cache_key : CacheKey) (st : FredState)
    (tbl : ObsTable)
    (h : lookupCache (series_id, cache_key) st.cache = some tbl) :
    fetch_fred_data_cached provider series_id cache_key st =
      (tbl, { st with cache := ((series_id, cache_key), tbl) ::
          st.cache.filter (fun e => !decide (e.1 = (series_id, cache_key))) }) := by
  simp [fetch_fred_data_cached, h]

theorem fetch_cached_miss (provider : Nat → FredRequest → FredResponse)
    (series_id : String) (cache_key : CacheKey) (st : FredState)
    (h : lookupCache (series_id, cache_key) st.cache = none) :
    fetch_fred_data_cached provider series_id cache_key st =
      (processResponse (provider st.requests (params series_id)),
       { cache := ((series_id, cache_key),
             processResponse (provider st.requests (params series_id))) ::
           st.cache.take 127,
         requests := st.requests + 1,
         sent := st.sent ++ [params series_id] }) := by
  simp [fetch_fred_data_cached, h]

theorem processResponse_of_failure (r : FredResponse)
    (h : isFailure r = true) : processResponse r = [] := by
  cases r with
  | transportError => rfl
  | statusError => rfl
  | jsonError => rfl
  | ok body =>
    have hb : body.observations = none := by
      simpa [isFailure, Option.isNone_iff_eq_none] using h
    simp [processResponse, hb]

/-- C3: on a cache miss, whichever of the handled failure points the provider
hits — transport failure, non-success status, undecodable body, or a body
missing the `observations` field — the fetch returns the empty Observation
Table (the exceptions are caught inside `fetch_fred_data_cached`, so nothing
is raised to the caller, which the totality of the model reflects), and that
empty table is what the current bucket now memoises. -/
theorem failure_empty_and_cached (provider : Nat → FredRequest → FredResponse)
    (sid : String) (fh : Bool) (now : Nat) (st : FredState)
    (hmiss : lookupCache (sid, fetchKey sid fh now) st.cache = none)
    (hfail : isFailure (provider st.requests (params sid)) = true) :
    (fetch_fred_data provider sid fh now st).1 = [] ∧
    lookupCache (sid, fetchKey sid fh now)
      (fetch_fred_data provider sid fh now st).2.cache = some [] := by
  have hm := fetch_cached_miss provider sid (fetchKey sid fh now) st hmiss
  have hempty := processResponse_of_failure _ hfail
  constructor
  · show (fetch_fred_data_cached provider sid (fetchKey sid fh now) st).1 = []
    rw [hm]
    exact hempty
  · show lookupCache (sid, fetchKey sid fh now)
      (fetch_fred_data_cached provider sid (fetchKey sid fh now) st).2.cache =
      some []
    rw [hm]
    show lookupCache _ (_ :: _) = _
    rw [hempty]
    exact lookupCache_cons_self _ _ _

theorem failure_empty_and_cached_witness :
    (fetch_fred_data errProvider "UNRATE" false 0 emptyState).1 = [] ∧
    lookupCache ("UNRATE", fetchKey "UNRATE" false 0)
      (fetch_fred_data errProvider "UNRATE" false 0 emptyState).2.cache =
      some [] :=
  failure_empty_and_cached errProvider "UNRATE" false 0 emptyState
    (by decide) (by decide)

/-- C5 (amended): the outbound request issued on a cache miss carries the
`observation_start` earliest-date filter exactly when the series code is
SP500; the caller's `full_history` flag only selects the cache bucket and has
no effect on the request parameters. -/
theorem start_filter_iff_sp500 (provider : Nat → FredRequest → FredResponse)
    (sid : String) (fh : Bool) (now : Nat) (st : FredState)
    (hmiss : lookupCache (sid, fetchKey sid fh now) st.cache = none) :
    (fetch_fred_data provider sid fh now st).2.sent =
      st.sent ++ [params sid] ∧
    ((params sid).observation_start ≠ none ↔ sid = "SP500") := by
  constructor
  · show (fetch_fred_data_cached provider sid (fetchKey sid fh now) st).2.sent = _
    rw [fetch_cached_miss provider sid (fetchKey sid fh now) st hmiss]
  · by_cases h : sid = "SP500" <;> simp [params, h]

theorem start_filter_iff_sp500_witness :
    (fetch_fred_data errProvider "SP500" false 0 emptyState).2.sent =
      emptyState.sent ++ [params "SP500"] ∧
    ((params "SP500").observation_start ≠ none ↔ "SP500" = "SP500") :=
  start_filter_iff_sp500 errProvider "SP500" false 0 emptyState (by decide)

theorem start_filter_missing_for_full_history :
    (fetch_fred_data errProvider "GDP" true 0 emptyState).2.sent.map
      (fun r => r.observation_start) = [none] := by decide

theorem processResponse_sorted (r : FredResponse) :
    List.Sorted obsDesc (processResponse r) := by
  cases r with
  | transportError => exact List.sorted_nil
  | statusError => exact List.sorted_nil
  | jsonError => exact List.sorted_nil
  | ok body =>
    cases hb : body.observations with
    | none => simp [processResponse, hb]
    | some obs =>
      simp only [processResponse, hb]
      exact List.sorted_insertionSort obsDesc obs

theorem lookupCache_mem (k : String × CacheKey)
    (c : List ((String × CacheKey) × ObsTable)) (tbl : ObsTable)
    (h : lookupCache k c = some tbl) : ∃ e ∈ c, e.2 = tbl := by
  unfold lookupCache at h
  obtain ⟨e, he, h2⟩ := Option.map_eq_some'.mp h
  exact ⟨e, List.mem_of_find?_eq_some he, h2⟩

/-- C7: assuming every memoised table is sorted by date descending — true of
the initial empty cache and preserved below — any table returned by fetch
satisfies `table[i].date >= table[i+1].date` for all adjacent rows, and the
invariant still holds afterwards. -/
theorem fetch_tables_sorted (provider : Nat → FredRequest → FredResponse)
    (sid : String) (fh : Bool) (now : Nat) (st : FredState)
    (h : CacheSorted st) :
    List.Chain' obsDesc (fetch_fred_data provider sid fh now st).1 ∧
    CacheSorted (fetch_fred_data provider sid fh now st).2 := by
  cases hl : lookupCache (sid, fetchKey sid fh now) st.cache with
  | some tbl =>
    have heq := fetch_cached_hit provider sid (fetchKey sid fh now) st tbl hl
    obtain ⟨e, hec, het⟩ := lookupCache_mem _ _ _ hl
    have hsorted : List.Sorted obsDesc tbl := het ▸ h e hec
    constructor
    · show List.Chain' obsDesc
        (fetch_fred_data_cached provider sid (fetchKey sid fh now) st).1
      rw [heq]
      exact List.Pairwise.chain' hsorted
    · show CacheSorted
        (fetch_fred_data_cached provider sid (fetchKey sid fh now) st).2
      rw [heq]
      intro e' he'
      rcases List.mem_cons.mp he' with he1 | he2
      · rw [he1]
        exact hsorted
      · exact h e' (List.mem_of_mem_filter he2)
  | none =>
    have heq := fetch_cached_miss provider sid (fetchKey sid fh now) st hl
    constructor
    · show List.Chain' obsDesc
        (fetch_fred_data_cached provider sid (fetchKey sid fh now) st).1
      rw [heq]
      exact List.Pairwise.chain' (processResponse_sorted _)
    · show CacheSorted
        (fetch_fred_data_cached provider sid (fetchKey sid fh now) st).2
      rw [heq]
      intro e' he'
      rcases List.mem_cons.mp he' with he1 | he2
      · rw [he1]
        exact processResponse_sorted _
      · exact h e' (List.take_subset _ _ he2)

theorem fetch_tables_sorted_witness :
    List.Chain' obsDesc (fetch_fred_data okProvider "CPI" false 0 emptyState).1 ∧
    CacheSorted (fetch_fred_data okProvider "CPI" false 0 emptyState).2 :=
  fetch_tables_sorted okProvider "CPI" false 0 emptyState
    (by simp [CacheSorted, emptyState])

/-- C4: the per-indicator summary computed by the dashboard at a table whose
values are both present with the prior exactly 0. The code guards only
against `None` values, never against a zero prior, so line 112 computes
`(change / 0.0) * 100`, whose float value is a positive infinity here — a
present, infinite `pct_change` where the claim requires an absent one. -/
theorem pct_change_infinite_for_zero_prior :
    (summarize [⟨1, .num 1⟩, ⟨0, .num 0⟩]).map (fun s => s.pct_change) =
      some (some (PyFloat.inf true)) := by
  norm_num [summarize, isNotNone, PyFloat.sub, PyFloat.div, PyFloat.mul]


/-- C6: evaluation of the dashboard summary block at a two-row table whose
prior reading is missing (the provider's ".", NaN after `to_numeric`). The
missing value reaches the guard on line 110 as NaN, which passes
`is not None`, so instead of leaving `change`, `pct_change` and `trend`
absent the program computes NaN for both numbers and — both NaN comparisons
on line 113 being false — labels the trend "stable". -/
theorem summarize_nan_not_absent :
    (summarize [⟨1, .num 100⟩, ⟨0, PyFloat.nan⟩]).map
      (fun s => (s.change, s.pct_change, s.trend)) =
      some (some PyFloat.nan, some PyFloat.nan, some "stable") := by
  decide

/-- C8: evaluation of both 2y/10y spread blocks at legs whose short-maturity
row-0 reading is missing (NaN). NaN passes the `is not None` guards on lines
144 and 212, so the spread is computed and reported as NaN — a present
value, not the absent one the claim requires (the inversion flag stays false
only because NaN comparisons are false). -/
theorem spread_nan_not_absent :
    spread_calc [⟨0, PyFloat.nan⟩] [⟨0, .num 4⟩] =
      (some PyFloat.nan, false) ∧
    route_spread (fun sid => if sid = "DGS2" then [⟨0, PyFloat.nan⟩]
        else if sid = "DGS10" then [⟨0, .num 4⟩] else []) =
      (some PyFloat.nan, false) := by
  decide

theorem length_filterMap_eq_countP {α : Type} {β : Type} (f : α → Option β)
    (l : List α) :
    (l.filterMap f).length = l.countP (fun a => (f a).isSome) := by
  induction l with
  | nil => rfl
  | cons a l ih =>
    cases h : f a <;> simp [List.filterMap_cons, h, List.countP_cons, ih]

/-- C9 (amended): both yield-curve blocks emit exactly one point for each
configured maturity series whose table is non-empty, sorted ascending by the
static per-series maturity, and omit only series with empty tables: the
dashboard block uses row 0's value and the `yield_curve` route uses row 0's
value and date. Neither block omits a series whose row-0 reading is
missing — the `is not None` filter on line 128 never fires on the float
column — so such a series contributes a point carrying NaN. -/
theorem yield_curve_contract (tables : String → ObsTable) :
    List.Chain' pointLe (yield_curve_data tables) ∧
    (∀ p, p ∈ yield_curve_data tables ↔ ∃ info, info ∈ TREASURY_YIELDS ∧
      ∃ o rest, tables info.series_id = o :: rest ∧
        p = ⟨info.maturity, info.name, o.value⟩) ∧
    (yield_curve_data tables).length =
      TREASURY_YIELDS.countP (fun info => (mkYieldPoint tables info).isSome) ∧
    List.Chain' entryLe (sorted_treasuries tables) ∧
    (∀ e, e ∈ sorted_treasuries tables ↔ ∃ info, info ∈ TREASURY_YIELDS ∧
      ∃ o rest, tables info.series_id = o :: rest ∧
        e = ⟨info.key, info.name, info.maturity, o.value, o.date, o :: rest⟩) ∧
    (sorted_treasuries tables).length =
      TREASURY_YIELDS.countP
        (fun info => (mkTreasuryEntry tables info).isSome) := by
  refine ⟨?_, ?_, ?_, ?_, ?_, ?_⟩
  · exact List.Pairwise.chain' (List.sorted_insertionSort pointLe _)
  · intro p
    rw [yield_curve_data, List.mem_insertionSort, List.mem_filterMap]
    constructor
    · rintro ⟨info, hmem, hmk⟩
      refine ⟨info, hmem, ?_⟩
      cases ht : tables info.series_id with
      | nil => simp [mkYieldPoint, ht] at hmk
      | cons o rest =>
        simp only [mkYieldPoint, ht, isNotNone, if_true,
          Option.some.injEq] at hmk
        exact ⟨o, rest, rfl, hmk.symm⟩
    · rintro ⟨info, hmem, o, rest, ht, hp⟩
      refine ⟨info, hmem, ?_⟩
      rw [hp]
      simp [mkYieldPoint, ht, isNotNone]
  · rw [yield_curve_data, List.length_insertionSort]
    exact length_filterMap_eq_countP _ _
  · exact List.Pairwise.chain' (List.sorted_insertionSort entryLe _)
  · intro e
    rw [sorted_treasuries, List.mem_insertionSort, treasury_route_data,
      List.mem_filterMap]
    constructor
    · rintro ⟨info, hmem, hmk⟩
      refine ⟨info, hmem, ?_⟩
      cases ht : tables info.series_id with
      | nil => simp [mkTreasuryEntry, ht] at hmk
      | cons o rest =>
        simp only [mkTreasuryEntry, ht, Option.some.injEq] at hmk
        exact ⟨o, rest, rfl, hmk.symm⟩
    · rintro ⟨info, hmem, o, rest, ht, he⟩
      refine ⟨info, hmem, ?_⟩
      rw [he]
      simp [mkTreasuryEntry, ht]
  · rw [sorted_treasuries, List.length_insertionSort, treasury_route_data]
    exact length_filterMap_eq_countP _ _

/-- C9 counterexample to the claim as stated: a series (DGS10) whose table is
non-empty but whose row-0 reading is missing (NaN) is omitted by neither
block — the dashboard emits a Yield Point carrying NaN and the `yield_curve`
route an entry whose current value is NaN — contradicting the claim that
only series with a present row-0 value produce a point and that the others
are silently omitted. -/
theorem yield_curve_keeps_nan_points :
    yield_curve_data (fun sid => if sid = "DGS10"
        then [⟨0, PyFloat.nan⟩] else []) =
      [⟨10, "10-Year Treasury", PyFloat.nan⟩] ∧
    sorted_treasuries (fun sid => if sid = "DGS10"
        then [⟨0, PyFloat.nan⟩] else []) =
      [⟨"DGS10", "10-Year Treasury", 10, PyFloat.nan, 0,
        [⟨0, PyFloat.nan⟩]⟩] := by
  decide

theorem yield_curve_contract_witness :
    List.Chain' pointLe (yield_curve_data (fun _ => [⟨0, .num 1⟩])) :=
  (yield_curve_contract (fun _ => [⟨0, .num 1⟩])).1

/-- C10: `get_data` on a key outside the indicator configuration returns the
empty list and leaves the fetch state untouched — no outbound request, no
cache change — and on a configured key whose fetched table is empty it
returns the empty list rather than an error (the model is total). -/
theorem get_data_contract (provider : Nat → FredRequest → FredResponse)
    (key : String) (now : Nat) (st : FredState) :
    (indicatorInfo key = none → get_data provider key now st = ([], st)) ∧
    (∀ info, indicatorInfo key = some info →
      (fetch_fred_data provider info.series_id (decide (key = "SP500"))
        now st).1 = [] →
      (get_data provider key now st).1 = []) := by
  constructor
  · intro h
    simp [get_data, h]
  · intro info h hempty
    simp [get_data, h, hempty]

theorem get_data_contract_witness :
    get_data errProvider "NOPE" 0 emptyState = ([], emptyState) ∧
    (get_data errProvider "GDP" 0 emptyState).1 = [] := by
  constructor
  · exact (get_data_contract errProvider "NOPE" 0 emptyState).1 (by decide)
  · exact (get_data_contract errProvider "GDP" 0 emptyState).2
      ⟨"Nominal GDP (Billions $)", "GDP"⟩ (by decide) (by decide)
